import Mathlib

/-!
Shallow embedding of `authn/idprovider/oidc/provider.go` (package `oidc`
of tkeel-io/security): the `OIDCProvider` identity resolver.

External collaborators (the OAuth2 token exchange, the go-oidc verifier,
JWT body parsing, the userinfo endpoint) are modelled as oracles collected
in a `World` structure: each oracle returns the outcome the corresponding
library call would produce.  `AuthenticateCode` then becomes a pure
function of the provider configuration, the world and the code, returning
the result together with the trace of outbound network calls it issued.
The behaviour of small, well-specified parts of the dependencies that the
source relies on (jwt `MapClaims.Valid`, `context.TODO`/`WithValue`,
`oauth2.Config.AuthCodeURL` with `url.Values.Encode`) is translated
directly from those libraries' sources.
-/

/-- A JSON-like claim value, as stored in `jwt.MapClaims`
(`map[string]interface{}`).  Numeric claims (`exp`, `iat`, `nbf`) are
modelled as integers (JWT NumericDate seconds). -/
inductive JVal where
  | str (s : String)
  | num (n : Int)
  | bool (b : Bool)
  | null
deriving DecidableEq, Repr

/-- Go type assertion `.(string)`: succeeds exactly on string values. -/
def JVal.asString : JVal → Option String
  | .str s => some s
  | _ => none

/-- A claim set (`jwt.MapClaims`): claim name to value.  Modelled as an
association list whose lookup takes the first matching entry. -/
abbrev ClaimSet := List (String × JVal)

/-- Map lookup `claims[k]`. -/
def getClaim (c : ClaimSet) (k : String) : Option JVal :=
  (c.find? (fun p => p.1 == k)).map (fun p => p.2)

/-- `json.Unmarshal` / `userInfo.Claims` into an existing non-nil map:
decoded keys overwrite existing entries, existing keys absent from the
decoded object are kept.  With first-match lookup this is `extra ++ base`. -/
def mergeClaims (base extra : ClaimSet) : ClaimSet :=
  extra ++ base

/-- The Go `context.Context` values this code builds: `context.TODO()`
and `context.WithValue` (used to attach the TLS-bypass HTTP client).
`context.TODO()` is a background context: never canceled, no deadline;
`WithValue` inherits the parent's cancellation behaviour. -/
inductive Context where
  | todo
  | withValue (parent : Context) (key : String)
deriving DecidableEq, Repr

/-- Whether a context can ever be canceled or expire.  A background/TODO
context cannot; a value context can only through its parent. -/
def Context.cancelable : Context → Bool
  | .todo => false
  | .withValue parent _ => parent.cancelable

/-- The token set returned by `OAuth2Config.Exchange`: only the raw extra
fields matter to this code (`token.Extra("id_token")`). -/
structure Token where
  extra : List (String × JVal)
deriving DecidableEq, Repr

/-- Outcome of `Verifier.Verify` followed by `idToken.Claims(&claims)`:
verification can fail, claim decoding can fail, or a claim set results. -/
inductive VerifyResult where
  | verifyError
  | claimsDecodeError
  | ok (claims : ClaimSet)

/-- Outcome of `Provider.UserInfo` followed by `userInfo.Claims(&claims)`. -/
inductive UserInfoResult where
  | fetchError
  | decodeError
  | ok (claims : ClaimSet)

/-- Outcome of `ioutil.ReadAll(resp.Body)` then `json.Unmarshal(data, &claims)`
on the direct userinfo GET: the read can fail, the decode can fail, or a
claim set results. -/
inductive ReadResult where
  | readError
  | decodeError
  | claims (cs : ClaimSet)

/-- An HTTP response from the direct userinfo GET: a status code and the
body.  The source never inspects `resp.StatusCode`. -/
structure HTTPResponse where
  statusCode : Nat
  body : ReadResult

/-- OAuth 2.0 endpoint URLs (struct `endpoint`). -/
structure Endpoint where
  AuthURL : String
  TokenURL : String
  UserInfoURL : String
  JWKSURL : String
  EndSessionURL : String
deriving DecidableEq, Repr

/-- The `OIDCProvider` struct: configuration fields plus the presence of
the optional discovery-backed `Provider` and `Verifier` pointers (their
behaviour lives in the `World` oracles). -/
structure OIDCProvider where
  Issuer : String
  ClientID : String
  ClientSecret : String
  Endpoint : Endpoint
  RedirectURL : String
  Scopes : List String
  GetUserInfo : Bool
  InsecureSkipVerify : Bool
  EmailKey : String
  PreferredUsernameKey : String
  Provider : Bool
  Verifier : Bool

/-- Outcomes of the external calls `AuthenticateCode` can make, as
functions of the context and arguments the source passes them, plus the
current time used by `jwt.MapClaims.Valid`. -/
structure World where
  exchange : Context → String → Except Unit Token
  verify : Context → String → VerifyResult
  parseUnverified : String → Option ClaimSet
  now : Int
  providerUserInfo : Context → Token → UserInfoResult
  httpGet : Context → Token → String → Except Unit HTTPResponse

/-- The errors `AuthenticateCode` / `Authenticate` return, one per
`errors.New` / `fmt.Errorf` site in the source. -/
inductive AuthError where
  | exchangeFailed
  | noIDToken
  | verifyFailed
  | claimsDecodeFailed
  | userinfoFailed
  | userinfoDecodeFailed
  | missingSub
  | unsupportedMethod
deriving DecidableEq, Repr

/-- The `oidcIdentity` struct returned on success. -/
structure OidcIdentity where
  Sub : String
  PreferredUsername : String
  Email : String
deriving DecidableEq, Repr

/-- Observable outbound network calls, for tracing side effects. -/
inductive NetCall where
  | exchange (code : String)
  | userinfoProvider
  | userinfoGet (url : String)
deriving DecidableEq, Repr

/-- `verifyExp` of golang-jwt v3: a zero `exp` counts as absent. -/
def verifyExp (exp cmp : Int) (required : Bool) : Bool :=
  if exp = 0 then !required else cmp ≤ exp

/-- `verifyIat` of golang-jwt v3. -/
def verifyIat (iat cmp : Int) (required : Bool) : Bool :=
  if iat = 0 then !required else iat ≤ cmp

/-- `verifyNbf` of golang-jwt v3. -/
def verifyNbf (nbf cmp : Int) (required : Bool) : Bool :=
  if nbf = 0 then !required else nbf ≤ cmp

/-- `MapClaims.VerifyExpiresAt`: missing claim passes when not required;
a non-numeric claim fails. -/
def verifyExpiresAt (c : ClaimSet) (cmp : Int) (required : Bool) : Bool :=
  match getClaim c "exp" with
  | none => !required
  | some (.num e) => verifyExp e cmp required
  | some _ => false

/-- `MapClaims.VerifyIssuedAt`. -/
def verifyIssuedAt (c : ClaimSet) (cmp : Int) (required : Bool) : Bool :=
  match getClaim c "iat" with
  | none => !required
  | some (.num i) => verifyIat i cmp required
  | some _ => false

/-- `MapClaims.VerifyNotBefore`. -/
def verifyNotBefore (c : ClaimSet) (cmp : Int) (required : Bool) : Bool :=
  match getClaim c "nbf" with
  | none => !required
  | some (.num n) => verifyNbf n cmp required
  | some _ => false

/-- `jwt.MapClaims.Valid()` at time `now`: true iff no validation error. -/
def mapClaimsValid (c : ClaimSet) (now : Int) : Bool :=
  verifyExpiresAt c now false && verifyIssuedAt c now false &&
    verifyNotBefore c now false

/-- Lines 103-113: build the request context from `context.TODO()`,
attaching the TLS-bypassing HTTP client when configured. -/
def buildCtx (o : OIDCProvider) : Context :=
  if o.InsecureSkipVerify then Context.withValue Context.todo "oauth2.HTTPClient"
  else Context.todo

/-- Lines 122-139: obtain claims from the raw identity token, via the
verifier when present, else by unverified parsing plus `claims.Valid()`. -/
def obtainClaims (o : OIDCProvider) (w : World) (ctx : Context)
    (rawIDToken : String) : Except AuthError ClaimSet :=
  if o.Verifier then
    match w.verify ctx rawIDToken with
    | .verifyError => .error .verifyFailed
    | .claimsDecodeError => .error .claimsDecodeFailed
    | .ok claims => .ok claims
  else
    match w.parseUnverified rawIDToken with
    | none => .error .claimsDecodeFailed
    | some claims =>
      if mapClaimsValid claims w.now then .ok claims
      else .error .verifyFailed

/-- Lines 140-163: optional userinfo enrichment, through the discovery
provider object when present, else a direct GET to the configured URL.
Returns the (possibly merged) claims and the network calls issued. -/
def fetchUserInfo (o : OIDCProvider) (w : World) (ctx : Context)
    (token : Token) (claims : ClaimSet) :
    Except AuthError ClaimSet × List NetCall :=
  if o.GetUserInfo then
    if o.Provider then
      match w.providerUserInfo ctx token with
      | .fetchError => (.error .userinfoFailed, [NetCall.userinfoProvider])
      | .decodeError => (.error .userinfoDecodeFailed, [NetCall.userinfoProvider])
      | .ok ui => (.ok (mergeClaims claims ui), [NetCall.userinfoProvider])
    else
      match w.httpGet ctx token o.Endpoint.UserInfoURL with
      | .error _ => (.error .userinfoFailed, [NetCall.userinfoGet o.Endpoint.UserInfoURL])
      | .ok resp =>
        match resp.body with
        | .readError => (.error .userinfoFailed, [NetCall.userinfoGet o.Endpoint.UserInfoURL])
        | .decodeError => (.error .userinfoDecodeFailed, [NetCall.userinfoGet o.Endpoint.UserInfoURL])
        | .claims ui => (.ok (mergeClaims claims ui), [NetCall.userinfoGet o.Endpoint.UserInfoURL])
  else (.ok claims, [])

/-- Lines 165-192: resolve subject, email and preferred username from the
final claim set and assemble the identity. -/
def resolveIdentity (o : OIDCProvider) (claims : ClaimSet) :
    Except AuthError OidcIdentity :=
  match (getClaim claims "sub").bind JVal.asString with
  | none => .error .missingSub
  | some subject =>
    let emailKey := if o.EmailKey ≠ "" then o.EmailKey else "email"
    let email := ((getClaim claims emailKey).bind JVal.asString).getD ""
    let preferredUsernameKey :=
      if o.PreferredUsernameKey ≠ "" then o.PreferredUsernameKey
      else "preferred_username"
    let preferredUsername :=
      ((getClaim claims preferredUsernameKey).bind JVal.asString).getD ""
    let preferredUsername :=
      if preferredUsername = "" then
        ((getClaim claims "name").bind JVal.asString).getD ""
      else preferredUsername
    .ok ⟨subject, preferredUsername, email⟩

/-- `AuthenticateCode` (lines 102-194), instrumented with the trace of
outbound network calls. -/
def authenticateCodeT (o : OIDCProvider) (w : World) (code : String) :
    Except AuthError OidcIdentity × List NetCall :=
  let ctx := buildCtx o
  match w.exchange ctx code with
  | .error _ => (.error .exchangeFailed, [NetCall.exchange code])
  | .ok token =>
    match (getClaim token.extra "id_token").bind JVal.asString with
    | none => (.error .noIDToken, [NetCall.exchange code])
    | some rawIDToken =>
      match obtainClaims o w ctx rawIDToken with
      | .error e => (.error e, [NetCall.exchange code])
      | .ok claims =>
        match fetchUserInfo o w ctx token claims with
        | (.error e, calls) => (.error e, NetCall.exchange code :: calls)
        | (.ok finalClaims, calls) =>
          (resolveIdentity o finalClaims, NetCall.exchange code :: calls)

/-- `AuthenticateCode`: the identity-or-error result alone. -/
def OIDCProvider.AuthenticateCode (o : OIDCProvider) (w : World)
    (code : String) : Except AuthError OidcIdentity :=
  (authenticateCodeT o w code).1

/-- `Authenticate` (lines 197-199): unconditional rejection of
username/password authentication; no network call is made. -/
def OIDCProvider.Authenticate (_o : OIDCProvider)
    (_username _password : String) :
    Except AuthError OidcIdentity × List NetCall :=
  (.error .unsupportedMethod, [])

/-- `Type` (lines 201-203). -/
def OIDCProvider.Type (_o : OIDCProvider) : String :=
  "OIDCIdentityProvider"

/-- Hexadecimal digit characters used by percent-encoding. -/
def hexDigit (n : Nat) : Char :=
  "0123456789ABCDEF".toList.getD n '0'

/-- A byte left unescaped by Go's `url.QueryEscape`: alphanumerics and
`-`, `.`, `_`, `~`. -/
def isUnreservedByte (b : UInt8) : Bool :=
  (48 ≤ b && b ≤ 57) || (65 ≤ b && b ≤ 90) || (97 ≤ b && b ≤ 122) ||
    b == 45 || b == 46 || b == 95 || b == 126

/-- `url.QueryEscape` on a single byte: space becomes `+`, unreserved
bytes pass through, everything else is percent-encoded. -/
def queryEscapeByte (b : UInt8) : String :=
  if b == 32 then "+"
  else if isUnreservedByte b then String.singleton (Char.ofNat b.toNat)
  else "%" ++ String.singleton (hexDigit (b.toNat / 16)) ++
    String.singleton (hexDigit (b.toNat % 16))

/-- UTF-8 encoding of one character (Go strings are UTF-8 byte
sequences; escaping operates on bytes). -/
def utf8Bytes (c : Char) : List UInt8 :=
  let v := c.toNat
  if v ≤ 0x7f then [UInt8.ofNat v]
  else if v ≤ 0x7ff then
    [UInt8.ofNat (0xc0 ||| (v >>> 6)), UInt8.ofNat (0x80 ||| (v &&& 0x3f))]
  else if v ≤ 0xffff then
    [UInt8.ofNat (0xe0 ||| (v >>> 12)), UInt8.ofNat (0x80 ||| ((v >>> 6) &&& 0x3f)),
      UInt8.ofNat (0x80 ||| (v &&& 0x3f))]
  else
    [UInt8.ofNat (0xf0 ||| (v >>> 18)), UInt8.ofNat (0x80 ||| ((v >>> 12) &&& 0x3f)),
      UInt8.ofNat (0x80 ||| ((v >>> 6) &&& 0x3f)), UInt8.ofNat (0x80 ||| (v &&& 0x3f))]

/-- `url.QueryEscape`: escape each UTF-8 byte of the string. -/
def queryEscape (s : String) : String :=
  String.join ((s.toList.flatMap utf8Bytes).map queryEscapeByte)

/-- `url.Values.Encode` on single-valued keys already listed in sorted
key order: `k1=v1&k2=v2&...` with both keys and values query-escaped. -/
def encodePairs : List (String × String) → String
  | [] => ""
  | [p] => queryEscape p.1 ++ "=" ++ queryEscape p.2
  | p :: q :: ps =>
    queryEscape p.1 ++ "=" ++ queryEscape p.2 ++ "&" ++ encodePairs (q :: ps)

/-- `strings.Contains(s, "?")`: whether the string holds a question
mark. -/
def hasQuery (s : String) : Bool :=
  s.toList.any (fun c => c == '?')

/-- `oauth2.Config.AuthCodeURL(state, oidc.Nonce(nonce))` from
golang.org/x/oauth2: start from the authorization URL, collect
`response_type=code`, `client_id`, optional `redirect_uri`, optional
`scope` (scopes joined by spaces), optional `state`, plus the `nonce`
parameter set by the option, and append them percent-encoded in sorted
key order after `?` (or `&` if the URL already has a query). -/
def oauth2AuthCodeURL (authURL clientID redirectURL : String)
    (scopes : List String) (state nonce : String) : String :=
  let v : List (String × String) :=
    [("client_id", clientID), ("nonce", nonce)] ++
    (if redirectURL ≠ "" then [("redirect_uri", redirectURL)] else []) ++
    [("response_type", "code")] ++
    (if scopes ≠ [] then [("scope", String.intercalate " " scopes)] else []) ++
    (if state ≠ "" then [("state", state)] else [])
  authURL ++ (if hasQuery authURL then "&" else "?") ++ encodePairs v

/-- `AuthCodeURL` (lines 78-80).  Modelled from the spec: the
`OAuth2Config` field is wired outside this file; per spec sections 4.3
and 6 it carries the provider's configured client id, redirect URL,
scopes and authorization endpoint, so the call delegates to the oauth2
library's URL construction over exactly those fields. -/
def OIDCProvider.AuthCodeURL (o : OIDCProvider) (state nonce : String) : String :=
  oauth2AuthCodeURL o.Endpoint.AuthURL o.ClientID o.RedirectURL o.Scopes state nonce

/-! ## Concrete example configurations and worlds (used by witnesses) -/

/-- Example endpoint configuration. -/
def exEndpoint : Endpoint :=
  ⟨"https://op/auth", "https://op/token", "https://op/userinfo", "", ""⟩

/-- Example token response with an `id_token` extra field. -/
def exToken : Token :=
  ⟨[("access_token", .str "at"), ("id_token", .str "rawtok")]⟩

/-- Example token response lacking an `id_token` extra field. -/
def exTokenNoID : Token :=
  ⟨[("access_token", .str "at")]⟩

/-- Example provider: no verifier, no discovery object, no userinfo. -/
def exProvider : OIDCProvider :=
  ⟨"https://op", "cid", "secret", exEndpoint, "https://rp/cb", ["openid"],
    false, false, "", "", false, false⟩

/-- Example provider with a verifier configured. -/
def exProviderV : OIDCProvider :=
  ⟨"https://op", "cid", "secret", exEndpoint, "https://rp/cb", ["openid"],
    false, false, "", "", false, true⟩

/-- Example provider with userinfo enabled and no discovery object. -/
def exProviderUI : OIDCProvider :=
  ⟨"https://op", "cid", "secret", exEndpoint, "https://rp/cb", ["openid"],
    true, false, "", "", false, false⟩

/-- Example provider with an email-claim override of `mail`. -/
def exProviderMail : OIDCProvider :=
  ⟨"https://op", "cid", "secret", exEndpoint, "https://rp/cb", ["openid"],
    false, false, "mail", "", false, false⟩

/-- Identity-token claims with a subject and an email claim. -/
def exClaimsTok : ClaimSet :=
  [("sub", .str "alice"), ("email", .str "tok@x")]

/-- Userinfo claims colliding with `email` and adding `nick`. -/
def exClaimsUI : ClaimSet :=
  [("email", .str "ui@x"), ("nick", .str "al")]

/-- Claims with a subject, a `mail` claim and no `email` claim. -/
def exClaimsMail : ClaimSet :=
  [("sub", .str "alice"), ("mail", .str "a@b.com")]

/-- Claims with a subject and a `name` claim but no preferred-username
claim. -/
def exClaimsName : ClaimSet :=
  [("sub", .str "alice"), ("name", .str "Alice")]

/-- Claims with no `sub` claim. -/
def exClaimsNoSub : ClaimSet :=
  [("email", .str "a@b.com")]

/-- World whose verifier rejects every token. -/
def exWorldVerifyFail : World :=
  ⟨fun _ _ => .ok exToken, fun _ _ => .verifyError, fun _ => none, 100,
    fun _ _ => .fetchError, fun _ _ _ => .error ()⟩

/-- World whose unverified parse fails on every token. -/
def exWorldParseFail : World :=
  ⟨fun _ _ => .ok exToken, fun _ _ => .verifyError, fun _ => none, 100,
    fun _ _ => .fetchError, fun _ _ _ => .error ()⟩

/-- World whose unverified parse yields a token expired at time 100. -/
def exWorldExpired : World :=
  ⟨fun _ _ => .ok exToken, fun _ _ => .verifyError,
    fun _ => some [("exp", .num 5), ("sub", .str "alice")], 100,
    fun _ _ => .fetchError, fun _ _ _ => .error ()⟩

/-- World whose token response has no `id_token`. -/
def exWorldNoID : World :=
  ⟨fun _ _ => .ok exTokenNoID, fun _ _ => .verifyError, fun _ => none, 100,
    fun _ _ => .fetchError, fun _ _ _ => .error ()⟩

/-- World whose identity token parses to claims lacking `sub`. -/
def exWorldNoSub : World :=
  ⟨fun _ _ => .ok exToken, fun _ _ => .verifyError, fun _ => some exClaimsNoSub,
    100, fun _ _ => .fetchError, fun _ _ _ => .error ()⟩

/-- World whose userinfo GET answers status 500 with decodable claims. -/
def exWorldUI : World :=
  ⟨fun _ _ => .ok exToken, fun _ _ => .verifyError, fun _ => some exClaimsTok,
    100, fun _ _ => .fetchError, fun _ _ _ => .ok ⟨500, .claims exClaimsUI⟩⟩

/-- World whose userinfo GET answers status 500 with an unreadable body. -/
def exWorldUIRead : World :=
  ⟨fun _ _ => .ok exToken, fun _ _ => .verifyError, fun _ => some exClaimsTok,
    100, fun _ _ => .fetchError, fun _ _ _ => .ok ⟨500, .readError⟩⟩

/-- World whose identity token parses to the `mail` claims. -/
def exWorldMail : World :=
  ⟨fun _ _ => .ok exToken, fun _ _ => .verifyError, fun _ => some exClaimsMail,
    100, fun _ _ => .fetchError, fun _ _ _ => .error ()⟩

/-- World whose identity token parses to the `name` claims. -/
def exWorldName : World :=
  ⟨fun _ _ => .ok exToken, fun _ _ => .verifyError, fun _ => some exClaimsName,
    100, fun _ _ => .fetchError, fun _ _ _ => .error ()⟩

/-! ## Theorems -/

/-- Claim C5: credential-based authentication rejects every
username/password pair unconditionally with the distinct "unsupported
authentication method" error, returns no identity, and triggers zero
network calls. -/
theorem authenticate_always_rejects (o : OIDCProvider)
    (username password : String) :
    o.Authenticate username password =
      (.error .unsupportedMethod, ([] : List NetCall)) :=
  rfl

/-- Claim C2 evidence: the context `AuthenticateCode` hands to the token
exchange (and the userinfo fetch) is built from `context.TODO()` —
optionally wrapped by `WithValue` for the TLS-bypass client — for every
configuration, and such a context can never be canceled or expire; the
method takes no caller context, so caller cancellation cannot reach the
in-flight HTTP call. -/
theorem exchange_context_never_cancelable (o : OIDCProvider) :
    (buildCtx o).cancelable = false := by
  unfold buildCtx
  cases h : o.InsecureSkipVerify <;> simp [Context.cancelable]

/-- Claim C3: a token response whose extra fields lack an `id_token`
string makes `AuthenticateCode` fail with the "missing id_token" error,
return no identity, and issue no userinfo call (the trace holds only the
exchange). -/
theorem missing_id_token_fails_without_userinfo
    (o : OIDCProvider) (w : World) (code : String) (token : Token)
    (hexch : w.exchange (buildCtx o) code = .ok token)
    (hid : (getClaim token.extra "id_token").bind JVal.asString = none) :
    authenticateCodeT o w code = (.error .noIDToken, [NetCall.exchange code]) := by
  simp only [authenticateCodeT, hexch, hid]

/-- Claim C1: claims are obtained via exactly one of two paths selected
by the verifier's presence.  With a verifier, a token failing
verification yields the "token verification failed" error and no
identity.  Without a verifier, a token whose body fails to parse yields
the "claims decode failed" error, and a parsed token that is expired
according to its own `exp` claim yields the "token verification failed"
error. -/
theorem id_token_validation_paths
    (o : OIDCProvider) (w : World) (code : String) (token : Token)
    (raw : String)
    (hexch : w.exchange (buildCtx o) code = .ok token)
    (hid : (getClaim token.extra "id_token").bind JVal.asString = some raw) :
    (o.Verifier = true → w.verify (buildCtx o) raw = .verifyError →
      authenticateCodeT o w code = (.error .verifyFailed, [NetCall.exchange code])) ∧
    (o.Verifier = false → w.parseUnverified raw = none →
      authenticateCodeT o w code = (.error .claimsDecodeFailed, [NetCall.exchange code])) ∧
    (∀ (c : ClaimSet) (e : Int), o.Verifier = false →
      w.parseUnverified raw = some c →
      getClaim c "exp" = some (.num e) → 0 < e → e < w.now →
      authenticateCodeT o w code = (.error .verifyFailed, [NetCall.exchange code])) := by
  refine ⟨fun hv hverr => ?_, fun hv hparse => ?_, fun c e hv hparse hexp he0 hlt => ?_⟩
  · simp only [authenticateCodeT, hexch, hid, obtainClaims, hv, if_true, hverr]
  · simp only [authenticateCodeT, hexch, hid, obtainClaims, hv, Bool.false_eq_true,
      if_false, hparse]
  · have hval : mapClaimsValid c w.now = false := by
      simp only [mapClaimsValid, verifyExpiresAt, hexp, verifyExp]
      have he : ¬ e = 0 := by omega
      have hn : ¬ w.now ≤ e := by omega
      simp [he, hn]
    simp only [authenticateCodeT, hexch, hid, obtainClaims, hv, Bool.false_eq_true,
      if_false, hparse, hval, Bool.false_eq_true, if_false]

/-- Claim C4: whenever the resolved (post-userinfo) claim set has no
string claim named `sub`, `AuthenticateCode` fails with the "missing
subject claim" error and returns no identity. -/
theorem missing_sub_claim_fails
    (o : OIDCProvider) (w : World) (code : String) (token : Token)
    (raw : String) (c fc : ClaimSet) (calls : List NetCall)
    (hexch : w.exchange (buildCtx o) code = .ok token)
    (hid : (getClaim token.extra "id_token").bind JVal.asString = some raw)
    (hclaims : obtainClaims o w (buildCtx o) raw = .ok c)
    (hui : fetchUserInfo o w (buildCtx o) token c = (.ok fc, calls))
    (hsub : (getClaim fc "sub").bind JVal.asString = none) :
    (authenticateCodeT o w code).1 = .error .missingSub := by
  simp only [authenticateCodeT, hexch, hid, hclaims, hui, resolveIdentity, hsub]

/-- Claim C6: when userinfo enrichment is enabled and succeeds (through
either sub-path), the final claim set is the in-place merge of the
identity-token claims with the userinfo claims, and lookup in the merge
gives the userinfo value on key collision while preserving
identity-token claims absent from the userinfo response. -/
theorem userinfo_merge_precedence
    (o : OIDCProvider) (w : World) (code : String) (token : Token)
    (raw : String) (c ui : ClaimSet)
    (hexch : w.exchange (buildCtx o) code = .ok token)
    (hid : (getClaim token.extra "id_token").bind JVal.asString = some raw)
    (hclaims : obtainClaims o w (buildCtx o) raw = .ok c)
    (hgui : o.GetUserInfo = true) :
    (o.Provider = true → w.providerUserInfo (buildCtx o) token = .ok ui →
      (authenticateCodeT o w code).1 = resolveIdentity o (mergeClaims c ui)) ∧
    (∀ st : Nat, o.Provider = false →
      w.httpGet (buildCtx o) token o.Endpoint.UserInfoURL = .ok ⟨st, .claims ui⟩ →
      (authenticateCodeT o w code).1 = resolveIdentity o (mergeClaims c ui)) ∧
    (∀ k : String, getClaim (mergeClaims c ui) k =
      match getClaim ui k with
      | some v => some v
      | none => getClaim c k) := by
  refine ⟨fun hp hok => ?_, fun st hp hok => ?_, fun k => ?_⟩
  · simp only [authenticateCodeT, hexch, hid, hclaims, fetchUserInfo, hgui, if_true,
      hp, hok]
  · simp only [authenticateCodeT, hexch, hid, hclaims, fetchUserInfo, hgui, if_true,
      hp, Bool.false_eq_true, if_false, hok]
  · simp only [mergeClaims, getClaim, List.find?_append]
    cases h : ui.find? (fun p => p.1 == k) <;> simp [Option.or, h]

/-- Claim C7: the resolved email is read from the final claim set under
the configured email-claim key when set, else under `email`; in
particular an override of `mail` with a `mail: "a@b.com"` claim resolves
to `a@b.com`, and an absent email claim resolves to the empty string
rather than an error. -/
theorem email_claim_resolution
    (o : OIDCProvider) (w : World) (code : String) (token : Token)
    (raw : String) (c fc : ClaimSet) (calls : List NetCall) (s : String)
    (hexch : w.exchange (buildCtx o) code = .ok token)
    (hid : (getClaim token.extra "id_token").bind JVal.asString = some raw)
    (hclaims : obtainClaims o w (buildCtx o) raw = .ok c)
    (hui : fetchUserInfo o w (buildCtx o) token c = (.ok fc, calls))
    (hsub : (getClaim fc "sub").bind JVal.asString = some s) :
    (authenticateCodeT o w code).1 =
      .ok ⟨s,
        (let puk := if o.PreferredUsernameKey ≠ "" then o.PreferredUsernameKey
          else "preferred_username"
        let pu := ((getClaim fc puk).bind JVal.asString).getD ""
        if pu = "" then ((getClaim fc "name").bind JVal.asString).getD "" else pu),
        ((getClaim fc (if o.EmailKey ≠ "" then o.EmailKey else "email")).bind
          JVal.asString).getD ""⟩ ∧
    (o.EmailKey = "mail" → getClaim fc "mail" = some (.str "a@b.com") →
      ((getClaim fc (if o.EmailKey ≠ "" then o.EmailKey else "email")).bind
        JVal.asString).getD "" = "a@b.com") ∧
    (getClaim fc (if o.EmailKey ≠ "" then o.EmailKey else "email") = none →
      ((getClaim fc (if o.EmailKey ≠ "" then o.EmailKey else "email")).bind
        JVal.asString).getD "" = "") := by
  refine ⟨?_, fun hkey hmail => ?_, fun hnone => ?_⟩
  · simp only [authenticateCodeT, hexch, hid, hclaims, hui, resolveIdentity, hsub]
  · rw [hkey]
    simp [hmail, JVal.asString]
  · rw [hnone]
    rfl

/-- Claim C8: the resolved preferred username is read under the
configured preferred-username-claim key when set, else
`preferred_username`, and falls back to the `name` claim when that
lookup yields nothing; in particular with nothing under the
configured/default key and a `name` claim of `"Alice"` it resolves to
`"Alice"`.  Empty/absent is tolerated, not an error. -/
theorem preferred_username_resolution
    (o : OIDCProvider) (w : World) (code : String) (token : Token)
    (raw : String) (c fc : ClaimSet) (calls : List NetCall) (s : String)
    (hexch : w.exchange (buildCtx o) code = .ok token)
    (hid : (getClaim token.extra "id_token").bind JVal.asString = some raw)
    (hclaims : obtainClaims o w (buildCtx o) raw = .ok c)
    (hui : fetchUserInfo o w (buildCtx o) token c = (.ok fc, calls))
    (hsub : (getClaim fc "sub").bind JVal.asString = some s) :
    (authenticateCodeT o w code).1 =
      .ok ⟨s,
        (let puk := if o.PreferredUsernameKey ≠ "" then o.PreferredUsernameKey
          else "preferred_username"
        let pu := ((getClaim fc puk).bind JVal.asString).getD ""
        if pu = "" then ((getClaim fc "name").bind JVal.asString).getD "" else pu),
        ((getClaim fc (if o.EmailKey ≠ "" then o.EmailKey else "email")).bind
          JVal.asString).getD ""⟩ ∧
    (getClaim fc (if o.PreferredUsernameKey ≠ "" then o.PreferredUsernameKey
        else "preferred_username") = none →
      getClaim fc "name" = some (.str "Alice") →
      (let puk := if o.PreferredUsernameKey ≠ "" then o.PreferredUsernameKey
        else "preferred_username"
      let pu := ((getClaim fc puk).bind JVal.asString).getD ""
      if pu = "" then ((getClaim fc "name").bind JVal.asString).getD "" else pu) =
        "Alice") := by
  refine ⟨?_, fun hnone hname => ?_⟩
  · simp only [authenticateCodeT, hexch, hid, hclaims, hui, resolveIdentity, hsub]
  · simp only [hnone, hname, Option.bind_none, Option.getD_none, JVal.asString,
      Option.bind_some, if_true, Option.getD_some]
    rfl

/-- Claim C10: in the direct userinfo path (userinfo enabled, no
discovery-backed provider object), the HTTP status code of the userinfo
response is never inspected: for every status the body is read and
decoded, and the call fails with a userinfo error only when the request
itself errors, the body cannot be read, or the body does not decode as a
JSON object. -/
theorem direct_userinfo_ignores_status
    (o : OIDCProvider) (w : World) (code : String) (token : Token)
    (raw : String) (c : ClaimSet)
    (hgui : o.GetUserInfo = true) (hprov : o.Provider = false)
    (hexch : w.exchange (buildCtx o) code = .ok token)
    (hid : (getClaim token.extra "id_token").bind JVal.asString = some raw)
    (hclaims : obtainClaims o w (buildCtx o) raw = .ok c) :
    (w.httpGet (buildCtx o) token o.Endpoint.UserInfoURL = .error () →
      (authenticateCodeT o w code).1 = .error .userinfoFailed) ∧
    (∀ st : Nat, w.httpGet (buildCtx o) token o.Endpoint.UserInfoURL =
        .ok ⟨st, .readError⟩ →
      (authenticateCodeT o w code).1 = .error .userinfoFailed) ∧
    (∀ st : Nat, w.httpGet (buildCtx o) token o.Endpoint.UserInfoURL =
        .ok ⟨st, .decodeError⟩ →
      (authenticateCodeT o w code).1 = .error .userinfoDecodeFailed) ∧
    (∀ (st : Nat) (ui : ClaimSet),
      w.httpGet (buildCtx o) token o.Endpoint.UserInfoURL = .ok ⟨st, .claims ui⟩ →
      (authenticateCodeT o w code).1 = resolveIdentity o (mergeClaims c ui)) := by
  refine ⟨fun hget => ?_, fun st hget => ?_, fun st hget => ?_, fun st ui hget => ?_⟩ <;>
    simp only [authenticateCodeT, hexch, hid, hclaims, fetchUserInfo, hgui, if_true,
      hprov, Bool.false_eq_true, if_false, hget]

/-- Claim C9: `AuthCodeURL` is a pure, deterministic construction.  For
state and nonce values that query-escaping leaves unchanged, the URL
embeds both verbatim together with the configured client id, redirect
URL and scopes; and the URL depends only on the configured authorization
endpoint, client id, redirect URL and scopes (so equal inputs always
produce the identical URL). -/
theorem auth_code_url_deterministic_embeds
    (o : OIDCProvider) (s n : String)
    (hredir : o.RedirectURL ≠ "") (hscopes : o.Scopes ≠ [])
    (hstate : s ≠ "") (hs : queryEscape s = s) (hn : queryEscape n = n) :
    o.AuthCodeURL s n =
      o.Endpoint.AuthURL ++
      (if hasQuery o.Endpoint.AuthURL then "&" else "?") ++
      "client_id" ++ "=" ++ queryEscape o.ClientID ++
      "&" ++ "nonce" ++ "=" ++ n ++
      "&" ++ "redirect_uri" ++ "=" ++ queryEscape o.RedirectURL ++
      "&" ++ "response_type" ++ "=" ++ "code" ++
      "&" ++ "scope" ++ "=" ++ queryEscape (String.intercalate " " o.Scopes) ++
      "&" ++ "state" ++ "=" ++ s ∧
    (∀ o₂ : OIDCProvider, o₂.Endpoint.AuthURL = o.Endpoint.AuthURL →
      o₂.ClientID = o.ClientID → o₂.RedirectURL = o.RedirectURL →
      o₂.Scopes = o.Scopes → o₂.AuthCodeURL s n = o.AuthCodeURL s n) := by
  constructor
  · have hk1 : queryEscape "client_id" = "client_id" := by decide
    have hk2 : queryEscape "nonce" = "nonce" := by decide
    have hk3 : queryEscape "redirect_uri" = "redirect_uri" := by decide
    have hk4 : queryEscape "response_type" = "response_type" := by decide
    have hk5 : queryEscape "scope" = "scope" := by decide
    have hk6 : queryEscape "state" = "state" := by decide
    have hcode : queryEscape "code" = "code" := by decide
    simp only [OIDCProvider.AuthCodeURL, oauth2AuthCodeURL, hredir, hscopes, hstate,
      ne_eq, not_false_iff, if_true, List.cons_append, List.nil_append, encodePairs,
      hk1, hk2, hk3, hk4, hk5, hk6, hcode, hs, hn, String.append_assoc]
  · intro o₂ h1 h2 h3 h4
    simp only [OIDCProvider.AuthCodeURL, oauth2AuthCodeURL, h1, h2, h3, h4]

/-! ## Witnesses -/

/-- Witness for claim C1: the three validation-failure paths at concrete
inputs — verifier rejection, unverified parse failure, and an expired
token (`exp = 5`, now = 100) under unverified parsing. -/
theorem id_token_validation_paths_witness :
    authenticateCodeT exProviderV exWorldVerifyFail "c" =
      (.error .verifyFailed, [NetCall.exchange "c"]) ∧
    authenticateCodeT exProvider exWorldParseFail "c" =
      (.error .claimsDecodeFailed, [NetCall.exchange "c"]) ∧
    authenticateCodeT exProvider exWorldExpired "c" =
      (.error .verifyFailed, [NetCall.exchange "c"]) := by
  refine ⟨?_, ?_, ?_⟩
  · exact (id_token_validation_paths exProviderV exWorldVerifyFail "c" exToken
      "rawtok" rfl rfl).1 rfl rfl
  · exact (id_token_validation_paths exProvider exWorldParseFail "c" exToken
      "rawtok" rfl rfl).2.1 rfl rfl
  · exact (id_token_validation_paths exProvider exWorldExpired "c" exToken
      "rawtok" rfl rfl).2.2 [("exp", .num 5), ("sub", .str "alice")] 5 rfl rfl rfl
      (by decide) (by decide)

/-- Witness for claim C3: a token response without `id_token` fails with
the missing-id_token error and the trace holds only the exchange call. -/
theorem missing_id_token_witness :
    authenticateCodeT exProvider exWorldNoID "c" =
      (.error .noIDToken, [NetCall.exchange "c"]) :=
  missing_id_token_fails_without_userinfo exProvider exWorldNoID "c" exTokenNoID
    rfl rfl

/-- Witness for claim C4: claims lacking `sub` produce the missing-subject
error. -/
theorem missing_sub_claim_witness :
    (authenticateCodeT exProvider exWorldNoSub "c").1 = .error .missingSub :=
  missing_sub_claim_fails exProvider exWorldNoSub "c" exToken "rawtok"
    exClaimsNoSub exClaimsNoSub [] rfl rfl rfl rfl rfl

/-- Witness for claim C6: with userinfo claims colliding on `email`, the
merged set resolves `email` to the userinfo value, keeps the
identity-token `sub`, and the full call resolves over the merge. -/
theorem userinfo_merge_precedence_witness :
    (authenticateCodeT exProviderUI exWorldUI "c").1 =
      resolveIdentity exProviderUI (mergeClaims exClaimsTok exClaimsUI) ∧
    getClaim (mergeClaims exClaimsTok exClaimsUI) "email" =
      some (.str "ui@x") ∧
    getClaim (mergeClaims exClaimsTok exClaimsUI) "sub" =
      some (.str "alice") := by
  have h := userinfo_merge_precedence exProviderUI exWorldUI "c" exToken "rawtok"
    exClaimsTok exClaimsUI rfl rfl rfl rfl
  exact ⟨h.2.1 500 rfl rfl, (h.2.2 "email").trans rfl, (h.2.2 "sub").trans rfl⟩

/-- Witness for claim C7: with the email-claim key overridden to `mail`
and claims holding `mail: "a@b.com"` but no `email`, the resolved
identity's email is `a@b.com`. -/
theorem email_claim_resolution_witness :
    (authenticateCodeT exProviderMail exWorldMail "c").1 =
      .ok ⟨"alice", "", "a@b.com"⟩ := by
  have h := email_claim_resolution exProviderMail exWorldMail "c" exToken
    "rawtok" exClaimsMail exClaimsMail [] "alice" rfl rfl rfl rfl rfl
  exact h.1.trans (by rfl)

/-- Witness for claim C8: with nothing under the default
preferred-username key and a `name` claim of `Alice`, the resolved
preferred username is `Alice`. -/
theorem preferred_username_resolution_witness :
    (authenticateCodeT exProvider exWorldName "c").1 =
      .ok ⟨"alice", "Alice", ""⟩ := by
  have h := preferred_username_resolution exProvider exWorldName "c" exToken
    "rawtok" exClaimsName exClaimsName [] "alice" rfl rfl rfl rfl rfl
  exact h.1.trans (by rfl)

/-- Witness for claim C9: the authorization URL at `state="s1"`,
`nonce="n1"` embeds both values verbatim with the configured client id,
redirect URL and scopes. -/
theorem auth_code_url_witness :
    exProvider.AuthCodeURL "s1" "n1" =
      "https://op/auth?client_id=cid&nonce=n1&redirect_uri=https%3A%2F%2Frp%2Fcb&response_type=code&scope=openid&state=s1" := by
  have h := (auth_code_url_deterministic_embeds exProvider "s1" "n1" (by decide)
    (by decide) (by decide) (by decide) (by decide)).1
  exact h.trans (by decide)

/-- Witness for claim C10: a userinfo GET answering status 500 with an
unreadable body fails with the userinfo error (the status itself is
never consulted). -/
theorem direct_userinfo_ignores_status_witness :
    (authenticateCodeT exProviderUI exWorldUIRead "c").1 =
      .error .userinfoFailed :=
  (direct_userinfo_ignores_status exProviderUI exWorldUIRead "c" exToken
    "rawtok" exClaimsTok rfl rfl rfl rfl rfl).2.1 500 rfl
